import Mathlib

/-!
Verification of the XSBench package recipe's configuration resolver
(`var/spack/repos/builtin/packages/xsbench/package.py`).

The recipe maps a set of boolean build variants, a compiler choice, an
accelerator-architecture descriptor and dependency locations to a build
subdirectory and an ordered list of build-tool arguments.  The Python
properties `build_directory` and `build_targets`, the CMake builder
hooks, and the declared `conflicts`/`requires` directives are embedded
below as pure Lean functions, and the specified properties are proved
or refuted about them.
-/

namespace XSBench

/-- The nine boolean variants declared by the recipe (`variant(...)` lines),
each defaulting to false. -/
structure VariantSet where
  mpi : Bool
  openmp_threading : Bool
  openmp_offload : Bool
  hip : Bool
  cuda : Bool
  kokkos : Bool
  sycl : Bool
  openacc : Bool
  align : Bool
  deriving DecidableEq, Repr

/-- The all-defaults variant set: every variant false. -/
def defaultVariants : VariantSet :=
  ⟨false, false, false, false, false, false, false, false, false⟩

/-- External inputs the resolver reads: the compiler choice (host C and C++
compiler paths, OpenMP enable flag, C++17 dialect flag, compiler family),
dependency locations (`spec["cuda"].prefix.bin.nvcc`,
`spec["hip"].prefix.bin.hipcc`, `spec["kokkos"].prefix`), the value of the
`cuda_arch` variant, and the architecture-flag expansion `cuda_flags`
provided by the externally-defined CudaPackage mixin. -/
structure BuildEnv where
  cc : String
  cxx : String
  openmp_flag : String
  cxx17_flag : String
  compilerFamily : String
  nvcc : String
  hipcc : String
  kokkosRoot : String
  cuda_arch : List String
  cudaFlagsFn : List String → List String

/-- Direct translation of the `build_directory` property: an ordered chain of
`if "+x" in spec: return ...` tests, including the duplicated trailing
`hip` and `cuda` checks present in the source; falling off the end of the
Python function yields `None`, embedded as `none`. -/
def build_directory (v : VariantSet) : Option String :=
  if v.openmp_threading then some "openmp-threading"
  else if v.openmp_offload then some "openmp-offload"
  else if v.hip then some "hip"
  else if v.cuda then some "cuda"
  else if v.kokkos then some "kokkos"
  else if v.sycl then some "sycl"
  else if v.openacc then some "openacc"
  else if v.hip then some "hip"
  else if v.cuda then some "cuda"
  else none

/-- `build_directory` with the two duplicated trailing checks removed
(the comparison function for the dead-code claim). -/
def build_directory_trimmed (v : VariantSet) : Option String :=
  if v.openmp_threading then some "openmp-threading"
  else if v.openmp_offload then some "openmp-offload"
  else if v.hip then some "hip"
  else if v.cuda then some "cuda"
  else if v.kokkos then some "kokkos"
  else if v.sycl then some "sycl"
  else if v.openacc then some "openacc"
  else none

/-- The subdirectory chain exactly as the claim states it: the `cuda` step
guarded by "only when neither openacc nor openmp-offload is also set". -/
def selectSubdirectoryClaimed (v : VariantSet) : Option String :=
  if v.openmp_threading then some "openmp-threading"
  else if v.openmp_offload then some "openmp-offload"
  else if v.hip then some "hip"
  else if v.cuda && !v.openacc && !v.openmp_offload then some "cuda"
  else if v.kokkos then some "kokkos"
  else if v.sycl then some "sycl"
  else if v.openacc then some "openacc"
  else none

/-- The amended subdirectory chain: first-match over
openmp-threading, openmp-offload, hip, cuda (unconditionally whenever the
variant is set), kokkos, sycl, openacc. -/
def selectSubdirectoryAmended (v : VariantSet) : Option String :=
  if v.openmp_threading then some "openmp-threading"
  else if v.openmp_offload then some "openmp-offload"
  else if v.hip then some "hip"
  else if v.cuda then some "cuda"
  else if v.kokkos then some "kokkos"
  else if v.sycl then some "sycl"
  else if v.openacc then some "openacc"
  else none

/-- Variant set with exactly cuda and openacc set. -/
def vCudaAcc : VariantSet :=
  ⟨false, false, false, false, true, false, false, true, false⟩

/-- Variant set with exactly openmp-threading and cuda set. -/
def vOmtCuda : VariantSet :=
  ⟨false, true, false, false, true, false, false, false, false⟩

/-- Claim C1 (counterexample): the chain as claimed guards its cuda step on
openacc being unset, but the source's `build_directory` does not: with cuda
and openacc both set the code returns "cuda" while the claimed chain
returns "openacc". -/
theorem C1_counterexample :
    build_directory vCudaAcc = some "cuda" ∧
    selectSubdirectoryClaimed vCudaAcc = some "openacc" ∧
    build_directory vCudaAcc ≠ selectSubdirectoryClaimed vCudaAcc := by
  decide

/-- Claim C1 (amended): `build_directory` is the first-match chain
openmp-threading, openmp-offload, hip, cuda (with no guard on openacc or
openmp-offload), kokkos, sycl, openacc; in particular whenever both
openmp-threading and cuda are set it returns "openmp-threading". -/
theorem C1_amended (v : VariantSet) :
    build_directory v = selectSubdirectoryAmended v ∧
    (v.openmp_threading = true → v.cuda = true →
      build_directory v = some "openmp-threading") := by
  rcases v with ⟨m, omt, omo, h, c, k, s, a, al⟩
  cases omt <;> cases omo <;> cases h <;> cases c <;> cases k <;> cases s <;>
    cases a <;> simp [build_directory, selectSubdirectoryAmended]

/-- Claim C1 (witness): the amended theorem at the concrete variant set with
openmp-threading and cuda both set. -/
theorem C1_amended_witness :
    build_directory vOmtCuda = selectSubdirectoryAmended vOmtCuda ∧
    (vOmtCuda.openmp_threading = true → vOmtCuda.cuda = true →
      build_directory vOmtCuda = some "openmp-threading") :=
  C1_amended vOmtCuda

/-- Claim C9: the duplicated trailing hip and cuda checks in
`build_directory` are dead code: the function is extensionally equal to the
same chain with those two trailing checks removed. -/
theorem C9_trailing_checks_dead (v : VariantSet) :
    build_directory v = build_directory_trimmed v := by
  rcases v with ⟨m, omt, omo, h, c, k, s, a, al⟩
  cases omt <;> cases omo <;> cases h <;> cases c <;> cases k <;> cases s <;>
    cases a <;> rfl

/-- Direct translation of the `build_targets` property.  `targets` starts
empty, `cflags` starts at "-O3" and `ldflags` at "-lm"; the MPI branch or
the accelerator elif-chain appends the compiler selector (the chain's cuda
step is guarded in the source by `"+openacc" not in spec` and
`"+openmp-offload" not in spec`) and extends `cflags`; the non-MPI branch
then appends "MPI=no"; the OpenMP flag is added for threading, offload or
openacc; the align branch appends "ALIGNED=yes"/"ALIGNED=no"; finally the
accumulated CFLAGS and LDFLAGS entries are appended. -/
def build_targets (env : BuildEnv) (v : VariantSet) : List String :=
  let cflags0 := "-O3"
  let ldflags := "-lm"
  let tc :=
    if v.mpi then
      (["CC=mpicc", "MPI=yes"], cflags0)
    else
      let tc0 :=
        if v.cuda && !v.openacc && !v.openmp_offload then
          (["CC=" ++ env.nvcc],
            cflags0 ++ " " ++ String.intercalate " " (env.cudaFlagsFn env.cuda_arch))
        else if v.hip then
          (["CC=" ++ env.hipcc], cflags0)
        else if v.sycl then
          (["CC=" ++ env.cxx], cflags0 ++ " -fsycl" ++ " " ++ env.cxx17_flag)
        else if v.openmp_offload then
          (["CC=" ++ env.cc],
            cflags0 ++ " -fopenmp-targets=nvptx-nvidia-cuda -Xopenmp-target -march=sm_"
              ++ env.cuda_arch.headD "")
        else if v.openacc then
          (["CC=" ++ env.cc],
            cflags0 ++ " -acc -Minfo=accel -gpu=cc" ++ env.cuda_arch.headD "")
        else
          (["CC=" ++ env.cc], cflags0)
      (tc0.1 ++ ["MPI=no"], tc0.2)
  let cflags1 :=
    if v.openmp_threading || v.openmp_offload || v.openacc then
      tc.2 ++ " " ++ env.openmp_flag
    else tc.2
  let tc2 :=
    if v.align then (tc.1 ++ ["ALIGNED=yes"], cflags1 ++ " -DALIGNED_WORK")
    else (tc.1 ++ ["ALIGNED=no"], cflags1)
  tc2.1 ++ ["CFLAGS=" ++ tc2.2, "LDFLAGS=" ++ ldflags]

/-- The compiler-selector argument exactly as the claim states it for the
non-MPI path: plain first match over cuda, hip, sycl, openmp-offload,
openacc, else the host compiler — with no guard on the cuda step. -/
def ccSelectorClaimed (env : BuildEnv) (v : VariantSet) : String :=
  if v.cuda then "CC=" ++ env.nvcc
  else if v.hip then "CC=" ++ env.hipcc
  else if v.sycl then "CC=" ++ env.cxx
  else if v.openmp_offload then "CC=" ++ env.cc
  else if v.openacc then "CC=" ++ env.cc
  else "CC=" ++ env.cc

/-- The amended compiler selector for the non-MPI path: first match over
cuda (only when neither openacc nor openmp-offload is set), hip, sycl,
openmp-offload, openacc, else the host compiler. -/
def ccSelectorAmended (env : BuildEnv) (v : VariantSet) : String :=
  if v.cuda && !v.openacc && !v.openmp_offload then "CC=" ++ env.nvcc
  else if v.hip then "CC=" ++ env.hipcc
  else if v.sycl then "CC=" ++ env.cxx
  else if v.openmp_offload then "CC=" ++ env.cc
  else if v.openacc then "CC=" ++ env.cc
  else "CC=" ++ env.cc

/-- The backend compiler-flag extension appended together with the amended
selector choice on the non-MPI path. -/
def ccFlagExtensionAmended (env : BuildEnv) (v : VariantSet) : String :=
  if v.cuda && !v.openacc && !v.openmp_offload then
    " " ++ String.intercalate " " (env.cudaFlagsFn env.cuda_arch)
  else if v.hip then ""
  else if v.sycl then " -fsycl" ++ " " ++ env.cxx17_flag
  else if v.openmp_offload then
    " -fopenmp-targets=nvptx-nvidia-cuda -Xopenmp-target -march=sm_"
      ++ env.cuda_arch.headD ""
  else if v.openacc then
    " -acc -Minfo=accel -gpu=cc" ++ env.cuda_arch.headD ""
  else ""

/-- A concrete environment used for counterexamples and witnesses. -/
def env0 : BuildEnv :=
  ⟨"cc", "c++", "-fopenmp", "-std=c++17", "gcc", "/cuda/bin/nvcc",
    "/hip/bin/hipcc", "/opt/kokkos", ["70"],
    fun l => l.map (fun a => "--generate-code arch=sm_" ++ a)⟩

/-- Claim C2 (counterexample): the claimed selector order puts cuda first
unconditionally, but the source guards the cuda branch on openacc and
openmp-offload being unset: with mpi false and both cuda and openacc set
the code selects the host compiler through the openacc branch, while the
claimed chain selects the CUDA compiler. -/
theorem C2_counterexample :
    vCudaAcc.mpi = false ∧
    (build_targets env0 vCudaAcc).head? = some "CC=cc" ∧
    ccSelectorClaimed env0 vCudaAcc = "CC=/cuda/bin/nvcc" ∧
    (build_targets env0 vCudaAcc).head? ≠ some (ccSelectorClaimed env0 vCudaAcc) := by
  decide

/-- Claim C2 (amended): for every environment and every variant set with mpi
false, the argument list is exactly the selector chosen by first match over
cuda (only when neither openacc nor openmp-offload is set), hip, sycl,
openmp-offload, openacc, else the host compiler, followed by "MPI=no", the
align argument, and the CFLAGS entry carrying "-O3" extended by that
backend's flag extension (plus the OpenMP flag and align define when
applicable), with "LDFLAGS=-lm" last. -/
theorem C2_amended (env : BuildEnv) (v : VariantSet) (hmpi : v.mpi = false) :
    build_targets env v =
      [ccSelectorAmended env v, "MPI=no"]
      ++ (if v.align then ["ALIGNED=yes"] else ["ALIGNED=no"])
      ++ ["CFLAGS=" ++
            ("-O3" ++ ccFlagExtensionAmended env v
              ++ (if v.openmp_threading || v.openmp_offload || v.openacc then
                    " " ++ env.openmp_flag
                  else "")
              ++ (if v.align then " -DALIGNED_WORK" else "")),
          "LDFLAGS=" ++ "-lm"] := by
  rcases v with ⟨m, omt, omo, h, c, k, s, a, al⟩
  cases m
  · cases omt <;> cases omo <;> cases h <;> cases c <;> cases s <;> cases a <;>
      cases al <;>
      simp [build_targets, ccSelectorAmended, ccFlagExtensionAmended,
        ← String.append_assoc]
  · exact absurd hmpi (by simp)

/-- Claim C2 (witness): the amended theorem at the concrete environment and
the variant set with only cuda and openacc set. -/
theorem C2_amended_witness :
    vCudaAcc.mpi = false ∧
    build_targets env0 vCudaAcc =
      [ccSelectorAmended env0 vCudaAcc, "MPI=no"]
      ++ (if vCudaAcc.align then ["ALIGNED=yes"] else ["ALIGNED=no"])
      ++ ["CFLAGS=" ++
            ("-O3" ++ ccFlagExtensionAmended env0 vCudaAcc
              ++ (if vCudaAcc.openmp_threading || vCudaAcc.openmp_offload
                      || vCudaAcc.openacc then
                    " " ++ env0.openmp_flag
                  else "")
              ++ (if vCudaAcc.align then " -DALIGNED_WORK" else "")),
          "LDFLAGS=" ++ "-lm"] :=
  ⟨by decide, C2_amended env0 vCudaAcc (by decide)⟩

/-- Claim C3: with every variant false, `build_directory` returns no
subdirectory and `build_targets` is exactly the host-compiler selector,
"MPI=no", "ALIGNED=no", and base flags "CFLAGS=-O3" and "LDFLAGS=-lm". -/
theorem C3_all_defaults (env : BuildEnv) :
    build_directory defaultVariants = none ∧
    build_targets env defaultVariants =
      ["CC=" ++ env.cc, "MPI=no", "ALIGNED=no", "CFLAGS=-O3", "LDFLAGS=-lm"] := by
  constructor
  · rfl
  · simp [build_targets, defaultVariants]

/-- Variant set with mpi and cuda both set. -/
def vMpiCuda : VariantSet :=
  ⟨true, false, false, false, true, false, false, false, false⟩

/-- Claim C4: with mpi set, the argument list is exactly "CC=mpicc",
"MPI=yes", the align argument, and the CFLAGS/LDFLAGS entries built only
from "-O3", the OpenMP flag and the align define — so it contains the MPI
selector and "MPI=yes", no accelerator selector and no accelerator flag
extension — and the result does not depend on cuda, hip or sycl. -/
theorem C4_mpi_exclusive (env : BuildEnv) (v : VariantSet) (hmpi : v.mpi = true) :
    build_targets env v =
      ["CC=mpicc", "MPI=yes"]
      ++ (if v.align then ["ALIGNED=yes"] else ["ALIGNED=no"])
      ++ ["CFLAGS=" ++
            ("-O3"
              ++ (if v.openmp_threading || v.openmp_offload || v.openacc then
                    " " ++ env.openmp_flag
                  else "")
              ++ (if v.align then " -DALIGNED_WORK" else "")),
          "LDFLAGS=" ++ "-lm"] ∧
    build_targets env v =
      build_targets env
        ⟨v.mpi, v.openmp_threading, v.openmp_offload, false, false, v.kokkos,
          false, v.openacc, v.align⟩ := by
  rcases v with ⟨m, omt, omo, h, c, k, s, a, al⟩
  cases m
  · exact absurd hmpi (by simp)
  · cases omt <;> cases omo <;> cases a <;> cases al <;>
      simp [build_targets, ← String.append_assoc]

/-- Claim C4 (witness): the theorem at the concrete environment and the
variant set with mpi and cuda both set. -/
theorem C4_mpi_exclusive_witness :
    vMpiCuda.mpi = true ∧
    (build_targets env0 vMpiCuda =
      ["CC=mpicc", "MPI=yes"]
      ++ (if vMpiCuda.align then ["ALIGNED=yes"] else ["ALIGNED=no"])
      ++ ["CFLAGS=" ++
            ("-O3"
              ++ (if vMpiCuda.openmp_threading || vMpiCuda.openmp_offload
                      || vMpiCuda.openacc then
                    " " ++ env0.openmp_flag
                  else "")
              ++ (if vMpiCuda.align then " -DALIGNED_WORK" else "")),
          "LDFLAGS=" ++ "-lm"] ∧
    build_targets env0 vMpiCuda =
      build_targets env0
        ⟨vMpiCuda.mpi, vMpiCuda.openmp_threading, vMpiCuda.openmp_offload,
          false, false, vMpiCuda.kokkos, false, vMpiCuda.openacc,
          vMpiCuda.align⟩) :=
  ⟨by decide, C4_mpi_exclusive env0 vMpiCuda (by decide)⟩

/-- The arguments appended before the final CFLAGS/LDFLAGS entries:
the compiler selector (or the MPI pair), the MPI=no marker on the non-MPI
path, and the align argument. -/
def coreArguments (env : BuildEnv) (v : VariantSet) : List String :=
  let t :=
    if v.mpi then ["CC=mpicc", "MPI=yes"]
    else
      (if v.cuda && !v.openacc && !v.openmp_offload then ["CC=" ++ env.nvcc]
       else if v.hip then ["CC=" ++ env.hipcc]
       else if v.sycl then ["CC=" ++ env.cxx]
       else if v.openmp_offload then ["CC=" ++ env.cc]
       else if v.openacc then ["CC=" ++ env.cc]
       else ["CC=" ++ env.cc]) ++ ["MPI=no"]
  if v.align then t ++ ["ALIGNED=yes"] else t ++ ["ALIGNED=no"]

/-- Claim C7: for every environment and variant set, the argument list is a
prefix of compiler-selector / MPI / ALIGNED entries followed by exactly two
final entries, the accumulated CFLAGS entry and then the LDFLAGS entry; no
entry of the prefix is a CFLAGS or LDFLAGS entry (each is "CC=mpicc", some
"CC=..." selector, an "MPI=..." marker or an "ALIGNED=..." marker). -/
theorem C7_flags_always_last (env : BuildEnv) (v : VariantSet) :
    ∃ cf, build_targets env v =
        coreArguments env v ++ ["CFLAGS=" ++ cf, "LDFLAGS=" ++ "-lm"] ∧
      ∀ t ∈ coreArguments env v,
        t = "CC=mpicc" ∨ (∃ x, t = "CC=" ++ x) ∨ t = "MPI=yes" ∨
          t = "MPI=no" ∨ t = "ALIGNED=yes" ∨ t = "ALIGNED=no" := by
  rcases v with ⟨m, omt, omo, h, c, k, s, a, al⟩
  cases m <;> cases omo <;> cases h <;> cases c <;> cases s <;> cases a <;>
    cases al <;>
    refine ⟨_, rfl, ?_⟩ <;> intro t ht <;>
    simp [coreArguments] at ht <;>
    rcases ht with rfl | rfl | rfl <;>
    first
      | exact Or.inr (Or.inl ⟨_, rfl⟩)
      | simp

/-- Claim C7 (witness): the theorem instantiated at the concrete
environment and the all-defaults variant set. -/
theorem C7_flags_always_last_witness :
    ∃ cf, build_targets env0 defaultVariants =
        coreArguments env0 defaultVariants
          ++ ["CFLAGS=" ++ cf, "LDFLAGS=" ++ "-lm"] ∧
      ∀ t ∈ coreArguments env0 defaultVariants,
        t = "CC=mpicc" ∨ (∃ x, t = "CC=" ++ x) ∨ t = "MPI=yes" ∨
          t = "MPI=no" ∨ t = "ALIGNED=yes" ∨ t = "ALIGNED=no" :=
  C7_flags_always_last env0 defaultVariants

/-- The resolver's output: the build subdirectory, the ordered build
arguments, and the fixed installed-artifact name copied by `install`. -/
structure ResolvedBuildPlan where
  subdirectory : Option String
  buildArguments : List String
  installArtifactName : String
  deriving DecidableEq, Repr

/-- The full resolution for the Makefile path: pair `build_directory` with
`build_targets`; the installed artifact is always the fixed name
"XSBench". -/
def resolve (env : BuildEnv) (v : VariantSet) : ResolvedBuildPlan :=
  ⟨build_directory v, build_targets env v, "XSBench"⟩

/-- Claim C8: resolution is deterministic — for fixed inputs, two
invocations of the resolver produce identical plans (the resolver is a pure
function of the variant set and environment: same subdirectory and same
argument list element-for-element). -/
theorem C8_deterministic (env : BuildEnv) (v : VariantSet) :
    resolve env v = resolve env v ∧
    (resolve env v).subdirectory = build_directory v ∧
    (resolve env v).buildArguments = build_targets env v :=
  ⟨rfl, rfl, rfl⟩

/-- A configuration error raised by the declared conflict and requirement
directives. -/
inductive ConfigError where
  | ConfigurationConflict (msg : String)
  deriving DecidableEq, Repr

/-- Holds when the architecture descriptor is absent: the `cuda_arch`
variant is empty or left at its "none" placeholder. -/
def cudaArchNone (arch : List String) : Bool :=
  arch.isEmpty || arch == ["none"]

/-- Modelled from the spec: the concretizer that enforces the package's
declared `conflicts` and `requires` directives is not part of this file —
only the declarations themselves are.  Following the spec ("must be
enforced before resolution runs", "build must not proceed"), the five
declared directives are checked in order and the first violated one
produces a ConfigurationConflict carrying the declared message:
`conflicts("cuda_arch=none", when="+cuda")`,
`conflicts("cuda_arch=none", when="+openacc")`,
`conflicts("cuda_arch=none", when="+openmp-offload")`,
`requires("%nvhpc", when="+openacc")`,
`requires("%clang", when="+openmp-offload")`. -/
def checkConfiguration (env : BuildEnv) (v : VariantSet) : Except ConfigError Unit :=
  if v.cuda && cudaArchNone env.cuda_arch then
    .error (.ConfigurationConflict "CUDA architecture is required")
  else if v.openacc && cudaArchNone env.cuda_arch then
    .error (.ConfigurationConflict "CUDA arch required with OpenACC")
  else if v.openmp_offload && cudaArchNone env.cuda_arch then
    .error (.ConfigurationConflict "CUDA arch required with OpenMP Offload")
  else if v.openacc && !(env.compilerFamily == "nvhpc") then
    .error (.ConfigurationConflict "OpenACC only supported with NVHPC compiler")
  else if v.openmp_offload && !(env.compilerFamily == "clang") then
    .error (.ConfigurationConflict "OpenMP Offload only supported with Clang compiler")
  else .ok ()

/-- Resolution guarded by the declared conflicts: the build plan is only
produced when no declared conflict or requirement is violated. -/
def resolveChecked (env : BuildEnv) (v : VariantSet) :
    Except ConfigError ResolvedBuildPlan :=
  match checkConfiguration env v with
  | .error e => .error e
  | .ok _ => .ok (resolve env v)

/-- A concrete environment with an absent architecture descriptor. -/
def envNoArch : BuildEnv :=
  ⟨"cc", "c++", "-fopenmp", "-std=c++17", "gcc", "/cuda/bin/nvcc",
    "/hip/bin/hipcc", "/opt/kokkos", [],
    fun l => l.map (fun a => "--generate-code arch=sm_" ++ a)⟩

/-- Variant set with exactly cuda set. -/
def vCudaOnly : VariantSet :=
  ⟨false, false, false, false, true, false, false, false, false⟩

/-- Variant set with exactly openacc set. -/
def vAccOnly : VariantSet :=
  ⟨false, false, false, false, false, false, false, true, false⟩

/-- Claim C5: whenever cuda, openacc or openmp-offload is requested and the
architecture descriptor is absent, checked resolution fails with a
ConfigurationConflict and no build plan is produced. -/
theorem C5_missing_arch_conflict (env : BuildEnv) (v : VariantSet)
    (hv : (v.cuda || v.openacc || v.openmp_offload) = true)
    (ha : cudaArchNone env.cuda_arch = true) :
    ∃ m, resolveChecked env v = .error (.ConfigurationConflict m) := by
  cases hc : v.cuda <;> cases ho : v.openacc <;> cases hf : v.openmp_offload <;>
    simp [resolveChecked, checkConfiguration, hc, ho, hf, ha] at hv ⊢

/-- Claim C5 (witness): the theorem at the concrete environment with an
empty architecture descriptor and the cuda-only variant set. -/
theorem C5_missing_arch_conflict_witness :
    (vCudaOnly.cuda || vCudaOnly.openacc || vCudaOnly.openmp_offload) = true ∧
    cudaArchNone envNoArch.cuda_arch = true ∧
    ∃ m, resolveChecked envNoArch vCudaOnly =
      .error (.ConfigurationConflict m) :=
  ⟨by decide, by decide,
    C5_missing_arch_conflict envNoArch vCudaOnly (by decide) (by decide)⟩

/-- Claim C6: whenever openacc is requested under a compiler family other
than nvhpc, or openmp-offload under a compiler family other than clang,
checked resolution fails with a ConfigurationConflict and no build plan is
produced. -/
theorem C6_compiler_family_conflict (env : BuildEnv) (v : VariantSet)
    (hv : (v.openacc = true ∧ env.compilerFamily ≠ "nvhpc") ∨
          (v.openmp_offload = true ∧ env.compilerFamily ≠ "clang")) :
    ∃ m, resolveChecked env v = .error (.ConfigurationConflict m) := by
  rcases hv with ⟨ho, hf⟩ | ⟨ho, hf⟩ <;>
    cases hc : v.cuda <;> cases ha : cudaArchNone env.cuda_arch <;>
    cases hoff : v.openmp_offload <;> cases hacc : v.openacc <;>
    by_cases hn : env.compilerFamily = "nvhpc" <;>
    simp_all [resolveChecked, checkConfiguration]

/-- Claim C6 (witness): the theorem at the concrete environment whose
compiler family is gcc and the openacc-only variant set. -/
theorem C6_compiler_family_conflict_witness :
    (vAccOnly.openacc = true ∧ env0.compilerFamily ≠ "nvhpc") ∧
    ∃ m, resolveChecked env0 vAccOnly = .error (.ConfigurationConflict m) :=
  ⟨⟨by decide, by decide⟩,
    C6_compiler_family_conflict env0 vAccOnly (Or.inl ⟨by decide, by decide⟩)⟩

/-- Translation of the `build_system` directive: cmake when kokkos is set,
makefile otherwise. -/
def build_system (v : VariantSet) : String :=
  if v.kokkos then "cmake" else "makefile"

/-- Translation of `CMakeBuilder.root_cmakelists_dir`: "kokkos" when the
kokkos variant is set, the implicit None otherwise. -/
def root_cmakelists_dir (v : VariantSet) : Option String :=
  if v.kokkos then some "kokkos" else none

/-- Translation of `CMakeBuilder.cmake_args`: a single definition binding
Kokkos_ROOT to the kokkos dependency's installation root; it reads no
variant at all. -/
def cmake_args (env : BuildEnv) : List (String × String) :=
  [("Kokkos_ROOT", env.kokkosRoot)]

/-- Variant set with every variant set (used to show the kokkos routing
ignores the other variants). -/
def vAllOn : VariantSet :=
  ⟨true, true, true, true, true, true, true, true, true⟩

/-- Claim C10: with kokkos set, the build is routed to the CMake build
system, the CMake root directory is "kokkos", and the CMake argument list
is exactly the single Kokkos_ROOT definition pointing at the kokkos
dependency root — all independent of every other variant, and none of the
Makefile-path argument assembly contributes to it. -/
theorem C10_kokkos_cmake_route (env : BuildEnv) (v : VariantSet)
    (hk : v.kokkos = true) :
    build_system v = "cmake" ∧
    root_cmakelists_dir v = some "kokkos" ∧
    cmake_args env = [("Kokkos_ROOT", env.kokkosRoot)] := by
  simp [build_system, root_cmakelists_dir, cmake_args, hk]

/-- Claim C10 (witness): the theorem at the concrete environment and the
variant set with every variant set. -/
theorem C10_kokkos_cmake_route_witness :
    vAllOn.kokkos = true ∧
    (build_system vAllOn = "cmake" ∧
      root_cmakelists_dir vAllOn = some "kokkos" ∧
      cmake_args env0 = [("Kokkos_ROOT", env0.kokkosRoot)]) :=
  ⟨by decide, C10_kokkos_cmake_route env0 vAllOn (by decide)⟩

end XSBench
